import Mathlib

/-!
Shallow embedding of the snapshot-tree constraint validator of
`builder/virtualbox/vm/config.go` (`Config.Prepare`), together with the
configuration defaulting step that feeds it.

The snapshot data model (`VBoxSnapshot`, `GetSnapshotsByName`,
`GetCurrentSnapshot`) lives in the sibling package
`builder/virtualbox/common`, which is not part of the sources at hand;
those pieces are modelled from the specification (spec.md sections 3, 4.1
and 9) and marked as such.  Everything else is translated directly from
`config.go`.

Go panics (the explicit internal-error panic of line 226 and the nil
pointer dereferences of lines 198 and 220) are embedded as the `.error`
branch of an `Except`; the ordinary accumulated validation errors are the
`.ok` payload, in the order `packer.MultiErrorAppend` produces them.
-/

set_option autoImplicit false

namespace PackerVBoxVM

/-- Modelled from the spec (section 3): a snapshot node of the tree returned
by the virtualization host.  The Go struct `vboxcommon.VBoxSnapshot` holds a
`Parent` back-pointer; following the arena/parent-UUID representation the
spec recommends (section 9), `Parent` is embedded as the optional UUID of
the parent node (`none` for a root).  The code only ever reads
`snapshot.Parent.UUID`, so this loses nothing. -/
structure SnapshotNode where
  Name : String
  UUID : String
  Parent : Option String
deriving DecidableEq, Repr

/-- Modelled from the spec (sections 3 and 4.1): the snapshot tree, as the
list of its nodes in the deterministic traversal order used by
`FindByName`, plus the `CurrentSnapshot` reference.  `CurrentSnapshot` is
kept optional so that the invariant "a present tree has a present current
snapshot" (spec section 3) can be stated as a hypothesis rather than baked
into the type. -/
structure SnapshotTree where
  nodes : List SnapshotNode
  CurrentSnapshot : Option SnapshotNode
deriving DecidableEq, Repr

/-- Modelled from the spec (section 4.1, `FindByName`): every node whose
`Name` equals `name`, in traversal order; empty list when none match. -/
def GetSnapshotsByName (t : SnapshotTree) (name : String) : List SnapshotNode :=
  t.nodes.filter (fun s => s.Name == name)

/-- Modelled from the spec (section 4.1, `CurrentSnapshot`): the node the VM
is presently attached to, absent only for an absent tree. -/
def GetCurrentSnapshot (t : SnapshotTree) : Option SnapshotNode :=
  t.CurrentSnapshot

/-- The check `nil != snapshot.Parent && snapshot.Parent.UUID ==
attachSnapshot.UUID` of config.go line 231 (spec section 4.1,
`IsDirectChild`). -/
def isDirectChild (candidate ancestor : SnapshotNode) : Bool :=
  match candidate.Parent with
  | none => false
  | some p => p == ancestor.UUID

/-- The loop of config.go lines 228-232: `isChild` is overwritten on every
iteration, so the result is the direct-child check of the **last** match
(or `false` for an empty list), not a logical OR over all matches. -/
def lastIsChild (snapshots : List SnapshotNode) (ancestor : SnapshotNode) : Bool :=
  snapshots.foldl (fun _ s => isDirectChild s ancestor) false

/-- The snapshot-constraint error kinds of config.go lines 185-240
(spec section 7, `SnapshotConstraintError`). -/
inductive ConstraintErr where
  | sameAttachAndTarget
  | noSnapshotsDefined
  | attachSnapshotNotFound
  | attachSnapshotAmbiguous
  | targetEqualsAttach
  | targetNotDirectChild
  | targetAlreadyExists
deriving DecidableEq, Repr

/-- config.go lines 185-187: the mutual-exclusion check between
`attach_snapshot` and `target_snapshot`. -/
def sameAttachTargetErrs (attachName targetName : String) : List ConstraintErr :=
  if attachName ≠ "" ∧ targetName ≠ "" ∧ attachName = targetName then
    [ConstraintErr.sameAttachAndTarget]
  else []

/-- config.go lines 195-199: the attach point starts out as the tree's
current snapshot.  The log call of line 198 reads `attachSnapshot.Name`
unconditionally, which is a nil pointer dereference (a Go runtime panic)
when `GetCurrentSnapshot` returns nil; that is the `.error` branch. -/
def initialAttachSnapshot (tree : Option SnapshotTree) :
    Except String (Option SnapshotNode) :=
  match tree with
  | none => Except.ok none
  | some t =>
    match GetCurrentSnapshot t with
    | none => Except.error "nil pointer dereference reading attachSnapshot.Name at the log call"
    | some cur => Except.ok (some cur)

/-- config.go lines 200-214: resolution of `attach_snapshot` by name.
Returns the errors emitted plus the (possibly updated) attach point.
On zero matches, several matches, or an absent tree the attach point is
left at its incoming value (the current snapshot). -/
def resolveAttachErrs (tree : Option SnapshotTree) (attachName : String)
    (attachSnapshot : Option SnapshotNode) :
    List ConstraintErr × Option SnapshotNode :=
  if attachName ≠ "" then
    match tree with
    | none => ([ConstraintErr.noSnapshotsDefined], attachSnapshot)
    | some t =>
      let snapshots := GetSnapshotsByName t attachName
      if snapshots.length = 0 then
        ([ConstraintErr.attachSnapshotNotFound], attachSnapshot)
      else if 1 < snapshots.length then
        ([ConstraintErr.attachSnapshotAmbiguous], attachSnapshot)
      else
        ([], snapshots.head?)
  else ([], attachSnapshot)

/-- config.go lines 215-246: validation of `target_snapshot` against the
resolved attach point.  Line 220 dereferences `attachSnapshot.Name`, a Go
runtime panic when the attach point is nil with a present tree; the
explicit internal-error panic of lines 225-227 is kept as well (it tests
the same pointer a second time, after the line-220 dereference). -/
def targetErrs (tree : Option SnapshotTree) (attachSnapshot : Option SnapshotNode)
    (targetName : String) (overwrite : Bool) :
    Except String (List ConstraintErr) :=
  if targetName ≠ "" then
    match tree with
    | none => Except.ok []
    | some t =>
      match attachSnapshot with
      | none => Except.error "nil pointer dereference reading attachSnapshot.Name at the target comparison"
      | some a =>
        if targetName = a.Name then
          Except.ok [ConstraintErr.targetEqualsAttach]
        else
          let snapshots := GetSnapshotsByName t targetName
          if 0 < snapshots.length then
            if attachSnapshot.isNone then
              Except.error "Internal error. Expecting a handle to a VBoxSnapshot"
            else
              if !(lastIsChild snapshots a) then
                Except.ok [ConstraintErr.targetNotDirectChild]
              else if !overwrite then
                Except.ok [ConstraintErr.targetAlreadyExists]
              else
                Except.ok []
          else
            Except.ok []
  else Except.ok []

/-- config.go lines 195-246: everything the validator does after the
same-name check of line 185 — initial attach point, attach-name
resolution, target validation — with the emitted errors in program
order. -/
def restAfterSameCheck (tree : Option SnapshotTree) (attachName targetName : String)
    (overwrite : Bool) : Except String (List ConstraintErr) :=
  match initialAttachSnapshot tree with
  | Except.error e => Except.error e
  | Except.ok attach0 =>
    let r := resolveAttachErrs tree attachName attach0
    match targetErrs tree r.2 targetName overwrite with
    | Except.error e => Except.error e
    | Except.ok errs2 => Except.ok (r.1 ++ errs2)

/-- config.go lines 185-246: the complete snapshot-constraint validation,
for a successfully created driver and a successful `LoadSnapshots` call
returning `tree` (`none` encodes the documented "VM has no snapshots"
result).  The `.ok` list is the sequence of constraint errors appended to
the `packer.MultiError`, in order; `.error` is a Go runtime panic. -/
def snapshotConstraintErrors (tree : Option SnapshotTree)
    (attachName targetName : String) (overwrite : Bool) :
    Except String (List ConstraintErr) :=
  match restAfterSameCheck tree attachName targetName overwrite with
  | Except.error e => Except.error e
  | Except.ok rest => Except.ok (sameAttachTargetErrs attachName targetName ++ rest)

/-- Modelled from the spec (section 3): a present tree always has a present
current snapshot (the provider-enforced invariant; `true` for an absent
tree). -/
def treeHasCurrent (tree : Option SnapshotTree) : Bool :=
  match tree with
  | none => true
  | some t => (GetCurrentSnapshot t).isSome

/-- The scalar configuration fields of `Config` (config.go lines 20-91) that
the prepared/validated behavior reads.  `PostShutdownDelay` and
`ShutdownCommand` come from the embedded `vboxcommon.ShutdownConfig`;
`PostShutdownDelay` is a Go `time.Duration`, an `Int` count of
nanoseconds. -/
structure Config where
  GuestAdditionsMode : String
  GuestAdditionsPath : String
  GuestAdditionsSHA256 : String
  VMName : String
  AttachSnapshot : String
  TargetSnapshot : String
  DeleteTargetSnapshot : Bool
  KeepRegistered : Bool
  SkipExport : Bool
  PostShutdownDelay : Int
  ShutdownCommand : String
deriving DecidableEq, Repr

/-- Go `time.Second` in nanoseconds. -/
def timeSecond : Int := 1000000000

/-- config.go lines 111-122: the defaulting step.  Each field is filled in
exactly when it is unset (empty string, zero duration); the three
assignments are independent, so they are written as one record update. -/
def applyDefaults (c : Config) : Config :=
  { c with
    GuestAdditionsMode :=
      if c.GuestAdditionsMode = "" then "upload" else c.GuestAdditionsMode,
    GuestAdditionsPath :=
      if c.GuestAdditionsPath = "" then "VBoxGuestAdditions.iso" else c.GuestAdditionsPath,
    PostShutdownDelay :=
      if c.PostShutdownDelay = 0 then 2 * timeSecond else c.PostShutdownDelay }

/-- config.go lines 144-149 and the doc comment of lines 34-40: the valid
guest-additions modes `disable`, `attach`, `upload` (the
`vboxcommon.GuestAdditionsMode*` constants). -/
def validModes : List String := ["disable", "attach", "upload"]

/-- config.go lines 167-179: the two warnings.  Warnings are collected
independently of errors and never affect the outcome. -/
def configWarnings (c : Config) : List String :=
  (if c.TargetSnapshot = "" ∧ c.SkipExport = true then
    ["No target snapshot is specified and no export will be created"]
  else [])
  ++ (if c.ShutdownCommand = "" then
    ["A shutdown_command was not specified"]
  else [])

/-- The error kinds `Config.Prepare` itself can append to the
`packer.MultiError` on the modelled path: errors of the ten embedded
sub-configuration `Prepare` calls (out of scope, kept opaque as their
message strings), the two field checks of config.go lines 139-161, and the
snapshot-constraint errors. -/
inductive PrepErr where
  | fieldError (msg : String)
  | vmNameRequired
  | invalidGuestAdditionsMode
  | snapshotConstraint (e : ConstraintErr)
deriving DecidableEq, Repr

/-- config.go lines 126-161: the error list accumulated before the snapshot
section — sub-configuration errors in call order, then the `vm_name`
check, then the `guest_additions_mode` check. -/
def prepFieldErrs (subErrs : List String) (c : Config) : List PrepErr :=
  subErrs.map PrepErr.fieldError
    ++ (if c.VMName = "" then [PrepErr.vmNameRequired] else [])
    ++ (if validModes.contains c.GuestAdditionsMode then []
        else [PrepErr.invalidGuestAdditionsMode])

/-- config.go lines 93-255, `Config.Prepare`, on the path where decoding,
driver creation and `LoadSnapshots` all succeed (their results are the
`subErrs` and `tree` parameters; the external collaborators themselves are
out of scope per spec sections 1 and 5).  Returns the warnings together
with `some` of the full accumulated error list when it is non-empty, and
`none` when it is empty (lines 249-254); `.error` is a Go runtime
panic inside the snapshot section. -/
def ConfigPrepare (subErrs : List String) (c0 : Config) (tree : Option SnapshotTree) :
    Except String (List String × Option (List PrepErr)) :=
  let c := applyDefaults c0
  let warnings := configWarnings c
  match snapshotConstraintErrors tree c.AttachSnapshot c.TargetSnapshot
      c.DeleteTargetSnapshot with
  | Except.error e => Except.error e
  | Except.ok snapErrs =>
    let errs := prepFieldErrs subErrs c ++ snapErrs.map PrepErr.snapshotConstraint
    if errs.length > 0 then Except.ok (warnings, some errs)
    else Except.ok (warnings, none)

lemma isOk_error_false {e : String} {α : Type} (h : (Except.error e : Except String α).isOk = true) : False := by
  simp [Except.isOk, Except.toBool] at h

lemma targetErrs_none_isOk (att : Option SnapshotNode) (tg : String) (ow : Bool) :
    (targetErrs none att tg ow).isOk = true := by
  unfold targetErrs
  split <;> rfl

lemma targetErrs_some_isOk (t : SnapshotTree) (a : SnapshotNode) (tg : String) (ow : Bool) :
    (targetErrs (some t) (some a) tg ow).isOk = true := by
  unfold targetErrs
  by_cases h1 : tg ≠ ""
  · simp only [if_pos h1]
    by_cases h2 : tg = a.Name
    · simp only [if_pos h2]; rfl
    · simp only [if_neg h2]
      by_cases h3 : 0 < (GetSnapshotsByName t tg).length
      · simp only [if_pos h3, Option.isNone_some, Bool.false_eq_true, if_false]
        by_cases h4 : lastIsChild (GetSnapshotsByName t tg) a = true
        · simp only [h4, Bool.not_true, Bool.false_eq_true, if_false]
          cases ow <;> rfl
        · simp only [Bool.not_eq_true] at h4
          simp only [h4, Bool.not_false, if_true]
          rfl
      · simp only [if_neg h3]
        rfl
  · simp only [if_neg h1]
    rfl

lemma resolveAttachErrs_some_isSome (t : SnapshotTree) (a : String) (cur : SnapshotNode) :
    ((resolveAttachErrs (some t) a (some cur)).2).isSome = true := by
  unfold resolveAttachErrs
  by_cases h1 : a ≠ ""
  · simp only [if_pos h1]
    by_cases h2 : (GetSnapshotsByName t a).length = 0
    · simp [h2]
    · by_cases h3 : 1 < (GetSnapshotsByName t a).length
      · simp [h2, h3]
      · simp only [if_neg h2, if_neg h3]
        cases hl : GetSnapshotsByName t a with
        | nil => exact absurd (by simp [hl]) h2
        | cons x xs => simp [hl]
  · simp [h1]

lemma restAfterSameCheck_isOk (tree : Option SnapshotTree) (a tg : String) (ow : Bool)
    (hinv : treeHasCurrent tree = true) :
    (restAfterSameCheck tree a tg ow).isOk = true := by
  cases tree with
  | none =>
    unfold restAfterSameCheck initialAttachSnapshot
    dsimp only
    have h := targetErrs_none_isOk (resolveAttachErrs none a none).2 tg ow
    cases ht : targetErrs none (resolveAttachErrs none a none).2 tg ow with
    | error e => rw [ht] at h; exact (isOk_error_false h).elim
    | ok l => rfl
  | some t =>
    dsimp only [treeHasCurrent] at hinv
    obtain ⟨cur, hcur⟩ := Option.isSome_iff_exists.mp hinv
    unfold restAfterSameCheck initialAttachSnapshot
    dsimp only
    rw [hcur]
    dsimp only
    obtain ⟨x, hx⟩ := Option.isSome_iff_exists.mp (resolveAttachErrs_some_isSome t a cur)
    have h := targetErrs_some_isOk t x tg ow
    rw [hx]
    cases ht : targetErrs (some t) (some x) tg ow with
    | error e => rw [ht] at h; exact (isOk_error_false h).elim
    | ok l => rfl

lemma snapshotConstraintErrors_isOk (tree : Option SnapshotTree) (a tg : String) (ow : Bool)
    (hinv : treeHasCurrent tree = true) :
    (snapshotConstraintErrors tree a tg ow).isOk = true := by
  unfold snapshotConstraintErrors
  have h := restAfterSameCheck_isOk tree a tg ow hinv
  cases ht : restAfterSameCheck tree a tg ow with
  | error e => rw [ht] at h; exact (isOk_error_false h).elim
  | ok l => rfl

def nodeRootBug : SnapshotNode := ⟨"root", "u1", none⟩
def nodeChildBug : SnapshotNode := ⟨"t", "u2", some "u1"⟩
def nodeSiblingBug : SnapshotNode := ⟨"b", "u4", some "u1"⟩
def nodeStrayBug : SnapshotNode := ⟨"t", "u3", some "u4"⟩
def treeBug : SnapshotTree :=
  ⟨[nodeRootBug, nodeChildBug, nodeSiblingBug, nodeStrayBug], some nodeRootBug⟩

/-- Claim C1 (code bug): in `treeBug` the attach point resolves uniquely to
the root, two nodes are named "t", and the first of them is a direct child
of the attach point; yet validation emits `targetNotDirectChild`, because
the loop of config.go lines 228-232 overwrites `isChild` so only the last
match counts. -/
theorem lastMatchOverwritesChildFlag :
    (GetSnapshotsByName treeBug "t").any (fun s => isDirectChild s nodeRootBug) = true
    ∧ snapshotConstraintErrors (some treeBug) "root" "t" false
        = Except.ok [ConstraintErr.targetNotDirectChild] :=
  ⟨rfl, rfl⟩

/-- Claim C3: equal non-empty attach and target names always yield
`sameAttachAndTarget`, prefixed to exactly the errors of the remaining
checks, which still run to completion. -/
theorem sameAttachTargetAccumulates (tree : Option SnapshotTree) (n : String) (ow : Bool)
    (hn : n ≠ "") (hinv : treeHasCurrent tree = true) :
    snapshotConstraintErrors tree n n ow
      = (restAfterSameCheck tree n n ow).map
          (fun rest => ConstraintErr.sameAttachAndTarget :: rest)
    ∧ (restAfterSameCheck tree n n ow).isOk = true := by
  constructor
  · unfold snapshotConstraintErrors
    have hsame : sameAttachTargetErrs n n = [ConstraintErr.sameAttachAndTarget] := by
      unfold sameAttachTargetErrs
      rw [if_pos ⟨hn, hn, rfl⟩]
    cases ht : restAfterSameCheck tree n n ow with
    | error e => rfl
    | ok rest => simp [Except.map, hsame]
  · exact restAfterSameCheck_isOk tree n n ow hinv

theorem sameAttachTargetAccumulates_witness :
    snapshotConstraintErrors none "snap" "snap" false
      = (restAfterSameCheck none "snap" "snap" false).map
          (fun rest => ConstraintErr.sameAttachAndTarget :: rest)
    ∧ (restAfterSameCheck none "snap" "snap" false).isOk = true :=
  sameAttachTargetAccumulates none "snap" false (by decide) rfl

/-- Claim C4: an absent tree with a non-empty attach name always yields
`noSnapshotsDefined` (and nothing else beyond the step-0 check). -/
theorem absentTreeNoSnapshotsDefined (a tg : String) (ow : Bool) (ha : a ≠ "") :
    snapshotConstraintErrors none a tg ow
      = Except.ok (sameAttachTargetErrs a tg ++ [ConstraintErr.noSnapshotsDefined])
    ∧ ConstraintErr.noSnapshotsDefined
        ∈ sameAttachTargetErrs a tg ++ [ConstraintErr.noSnapshotsDefined] := by
  constructor
  · have hres : resolveAttachErrs none a none = ([ConstraintErr.noSnapshotsDefined], none) := by
      unfold resolveAttachErrs
      rw [if_pos ha]
    have htgE : targetErrs none none tg ow = Except.ok [] := by
      unfold targetErrs
      split <;> rfl
    unfold snapshotConstraintErrors restAfterSameCheck initialAttachSnapshot
    dsimp only
    rw [hres]
    dsimp only
    rw [htgE]
    rfl
  · simp

theorem absentTreeNoSnapshotsDefined_witness :
    snapshotConstraintErrors none "snap2" "" false
      = Except.ok (sameAttachTargetErrs "snap2" "" ++ [ConstraintErr.noSnapshotsDefined])
    ∧ ConstraintErr.noSnapshotsDefined
        ∈ sameAttachTargetErrs "snap2" "" ++ [ConstraintErr.noSnapshotsDefined] :=
  absentTreeNoSnapshotsDefined "snap2" "" false (by decide)

/-- Claim C5: a non-empty attach name matching more than one node yields
`attachSnapshotAmbiguous`, and the attach point stays the current snapshot
(no match is silently picked). -/
theorem ambiguousAttachName (t : SnapshotTree) (cur : SnapshotNode) (a tg : String) (ow : Bool)
    (hcur : GetCurrentSnapshot t = some cur) (ha : a ≠ "")
    (hlen : 1 < (GetSnapshotsByName t a).length) :
    snapshotConstraintErrors (some t) a tg ow
      = (targetErrs (some t) (some cur) tg ow).map
          (fun e2 => sameAttachTargetErrs a tg
            ++ ([ConstraintErr.attachSnapshotAmbiguous] ++ e2))
    ∧ (targetErrs (some t) (some cur) tg ow).isOk = true := by
  have hres : resolveAttachErrs (some t) a (some cur)
      = ([ConstraintErr.attachSnapshotAmbiguous], some cur) := by
    unfold resolveAttachErrs
    rw [if_pos ha]
    dsimp only
    rw [if_neg (by omega), if_pos hlen]
  constructor
  · unfold snapshotConstraintErrors restAfterSameCheck initialAttachSnapshot
    dsimp only
    rw [hcur]
    dsimp only
    rw [hres]
    dsimp only
    cases ht : targetErrs (some t) (some cur) tg ow with
    | error e => rfl
    | ok e2 => simp [Except.map]
  · exact targetErrs_some_isOk t cur tg ow

def dupA : SnapshotNode := ⟨"dup", "u1", none⟩
def dupB : SnapshotNode := ⟨"dup", "u2", some "u1"⟩
def treeE : SnapshotTree := ⟨[dupA, dupB], some dupA⟩

theorem ambiguousAttachName_witness :
    snapshotConstraintErrors (some treeE) "dup" "x" false
      = (targetErrs (some treeE) (some dupA) "x" false).map
          (fun e2 => sameAttachTargetErrs "dup" "x"
            ++ ([ConstraintErr.attachSnapshotAmbiguous] ++ e2))
    ∧ (targetErrs (some treeE) (some dupA) "x" false).isOk = true :=
  ambiguousAttachName treeE dupA "dup" "x" false rfl (by decide) (by decide)

/-- Claim C10: under the tree invariant (a present tree has a present
current snapshot) the whole `Prepare` never panics: neither the nil
dereferences of lines 198 and 220 nor the explicit internal-error panic of
line 226 is reachable. -/
theorem prepareNeverPanics (subErrs : List String) (c : Config) (tree : Option SnapshotTree)
    (hinv : treeHasCurrent tree = true) :
    (ConfigPrepare subErrs c tree).isOk = true := by
  unfold ConfigPrepare
  dsimp only
  have h := snapshotConstraintErrors_isOk tree (applyDefaults c).AttachSnapshot
      (applyDefaults c).TargetSnapshot (applyDefaults c).DeleteTargetSnapshot hinv
  cases ht : snapshotConstraintErrors tree (applyDefaults c).AttachSnapshot
      (applyDefaults c).TargetSnapshot (applyDefaults c).DeleteTargetSnapshot with
  | error e => rw [ht] at h; exact (isOk_error_false h).elim
  | ok l =>
    dsimp only
    split <;> rfl

def cfgW : Config := ⟨"", "", "", "vm", "", "", false, false, false, 0, ""⟩

theorem prepareNeverPanics_witness :
    (ConfigPrepare [] cfgW (some treeE)).isOk = true :=
  prepareNeverPanics [] cfgW (some treeE) rfl

/-- Claim C2: when the attach name resolves to exactly one node `A` and
exactly one node `N` is named `targetName`, with `N` a direct child of `A`
(and no self-parent cycle at `A`, per the provider invariant), validation
yields exactly `targetAlreadyExists` without overwrite and no constraint
error with overwrite. -/
theorem uniqueChildTargetOverwrite (t : SnapshotTree) (cur A N : SnapshotNode)
    (attachName targetName : String)
    (hcur : GetCurrentSnapshot t = some cur)
    (ha : attachName ≠ "") (htg : targetName ≠ "")
    (hA : GetSnapshotsByName t attachName = [A])
    (hN : GetSnapshotsByName t targetName = [N])
    (hparent : N.Parent = some A.UUID)
    (hacyc : A.Parent ≠ some A.UUID) :
    snapshotConstraintErrors (some t) attachName targetName false
      = Except.ok [ConstraintErr.targetAlreadyExists]
    ∧ snapshotConstraintErrors (some t) attachName targetName true
      = Except.ok [] := by
  have hNA : N ≠ A := by
    intro h
    rw [h] at hparent
    exact hacyc hparent
  have hAmem : A ∈ GetSnapshotsByName t attachName := by
    rw [hA]
    exact List.mem_singleton.mpr rfl
  unfold GetSnapshotsByName at hAmem
  have hAin : A ∈ t.nodes := (List.mem_filter.mp hAmem).1
  have hAname : A.Name = attachName := by
    have h2 := (List.mem_filter.mp hAmem).2
    simpa using h2
  have hAneTg : A.Name ≠ targetName := by
    intro h
    have hmem2 : A ∈ GetSnapshotsByName t targetName := by
      unfold GetSnapshotsByName
      exact List.mem_filter.mpr ⟨hAin, by simpa using h⟩
    rw [hN] at hmem2
    exact hNA (List.mem_singleton.mp hmem2).symm
  have haneq : attachName ≠ targetName := by
    intro h
    exact hAneTg (hAname.trans h)
  have hsame : sameAttachTargetErrs attachName targetName = [] := by
    unfold sameAttachTargetErrs
    rw [if_neg]
    rintro ⟨-, -, h3⟩
    exact haneq h3
  have hres : resolveAttachErrs (some t) attachName (some cur) = ([], some A) := by
    unfold resolveAttachErrs
    rw [if_pos ha]
    dsimp only
    rw [hA]
    simp
  have hchild : lastIsChild [N] A = true := by
    unfold lastIsChild isDirectChild
    simp [hparent]
  have htgE : ∀ ow : Bool, targetErrs (some t) (some A) targetName ow
      = Except.ok (if ow then [] else [ConstraintErr.targetAlreadyExists]) := by
    intro ow
    unfold targetErrs
    rw [if_pos htg]
    dsimp only
    rw [if_neg (fun h => hAneTg h.symm)]
    try dsimp only
    rw [hN]
    rw [if_pos (by simp)]
    simp only [Option.isNone_some, Bool.false_eq_true, if_false]
    rw [hchild]
    cases ow <;> simp
  have key : ∀ ow : Bool, snapshotConstraintErrors (some t) attachName targetName ow
      = Except.ok (if ow then [] else [ConstraintErr.targetAlreadyExists]) := by
    intro ow
    unfold snapshotConstraintErrors restAfterSameCheck initialAttachSnapshot
    dsimp only
    rw [hcur]
    dsimp only
    rw [hres]
    dsimp only
    rw [htgE ow]
    try dsimp only
    rw [hsame]
    cases ow <;> simp
  refine ⟨?_, ?_⟩
  · rw [key false]
    rfl
  · rw [key true]
    rfl

def rootC : SnapshotNode := ⟨"root", "u1", none⟩
def builtC : SnapshotNode := ⟨"built", "u2", some "u1"⟩
def treeC : SnapshotTree := ⟨[rootC, builtC], some rootC⟩

theorem uniqueChildTargetOverwrite_witness :
    snapshotConstraintErrors (some treeC) "root" "built" false
      = Except.ok [ConstraintErr.targetAlreadyExists]
    ∧ snapshotConstraintErrors (some treeC) "root" "built" true
      = Except.ok [] :=
  uniqueChildTargetOverwrite treeC rootC rootC builtC "root" "built" rfl
    (by decide) (by decide) rfl rfl rfl (by decide)

/-- Claim C9: when the attach lookup has zero or several matches, the
target checks still run, with the current snapshot as the attach point;
in particular a target name equal to the current snapshot's name yields
`targetEqualsAttach`. -/
theorem unresolvedAttachUsesCurrent (t : SnapshotTree) (cur : SnapshotNode)
    (a tg : String) (ow : Bool)
    (hcur : GetCurrentSnapshot t = some cur)
    (ha : a ≠ "") (htg : tg ≠ "")
    (hlen : (GetSnapshotsByName t a).length = 0 ∨ 1 < (GetSnapshotsByName t a).length) :
    snapshotConstraintErrors (some t) a tg ow
      = (targetErrs (some t) (some cur) tg ow).map
          (fun e2 => sameAttachTargetErrs a tg
            ++ ((if (GetSnapshotsByName t a).length = 0
                 then [ConstraintErr.attachSnapshotNotFound]
                 else [ConstraintErr.attachSnapshotAmbiguous]) ++ e2))
    ∧ (tg = cur.Name → targetErrs (some t) (some cur) tg ow
        = Except.ok [ConstraintErr.targetEqualsAttach]) := by
  have hres : resolveAttachErrs (some t) a (some cur)
      = ((if (GetSnapshotsByName t a).length = 0
          then [ConstraintErr.attachSnapshotNotFound]
          else [ConstraintErr.attachSnapshotAmbiguous]), some cur) := by
    unfold resolveAttachErrs
    rw [if_pos ha]
    dsimp only
    rcases hlen with h0 | h1
    · rw [if_pos h0, if_pos h0]
    · rw [if_neg (by omega), if_pos h1, if_neg (by omega)]
  constructor
  · unfold snapshotConstraintErrors restAfterSameCheck initialAttachSnapshot
    dsimp only
    rw [hcur]
    dsimp only
    rw [hres]
    dsimp only
    cases ht : targetErrs (some t) (some cur) tg ow with
    | error e => rfl
    | ok e2 => simp [Except.map]
  · intro heq
    unfold targetErrs
    rw [if_pos htg]
    dsimp only
    rw [if_pos heq]

theorem unresolvedAttachUsesCurrent_witness :
    snapshotConstraintErrors (some treeC) "nope" "root" false
      = (targetErrs (some treeC) (some rootC) "root" false).map
          (fun e2 => sameAttachTargetErrs "nope" "root"
            ++ ((if (GetSnapshotsByName treeC "nope").length = 0
                 then [ConstraintErr.attachSnapshotNotFound]
                 else [ConstraintErr.attachSnapshotAmbiguous]) ++ e2))
    ∧ ("root" = rootC.Name → targetErrs (some treeC) (some rootC) "root" false
        = Except.ok [ConstraintErr.targetEqualsAttach]) :=
  unresolvedAttachUsesCurrent treeC rootC "nope" "root" false rfl
    (by decide) (by decide) (Or.inl (by decide))

/-- Claim C8: the defaulting step is a total function; it fills exactly the
unset fields (empty guest-additions mode becomes "upload", empty path
becomes "VBoxGuestAdditions.iso", zero delay becomes two seconds) and
leaves every other field, and every already-set value, unchanged. -/
theorem defaultsFillOnlyUnsetFields (c : Config) :
    (applyDefaults c).GuestAdditionsMode
        = (if c.GuestAdditionsMode = "" then "upload" else c.GuestAdditionsMode)
    ∧ (applyDefaults c).GuestAdditionsPath
        = (if c.GuestAdditionsPath = "" then "VBoxGuestAdditions.iso" else c.GuestAdditionsPath)
    ∧ (applyDefaults c).PostShutdownDelay
        = (if c.PostShutdownDelay = 0 then 2 * timeSecond else c.PostShutdownDelay)
    ∧ (applyDefaults c).GuestAdditionsSHA256 = c.GuestAdditionsSHA256
    ∧ (applyDefaults c).VMName = c.VMName
    ∧ (applyDefaults c).AttachSnapshot = c.AttachSnapshot
    ∧ (applyDefaults c).TargetSnapshot = c.TargetSnapshot
    ∧ (applyDefaults c).DeleteTargetSnapshot = c.DeleteTargetSnapshot
    ∧ (applyDefaults c).KeepRegistered = c.KeepRegistered
    ∧ (applyDefaults c).SkipExport = c.SkipExport
    ∧ (applyDefaults c).ShutdownCommand = c.ShutdownCommand :=
  ⟨rfl, rfl, rfl, rfl, rfl, rfl, rfl, rfl, rfl, rfl, rfl⟩

/-- Claim C7: `Prepare` returns the accumulated error list in full exactly
when it is non-empty and `none` when it is empty, and the warnings are the
same in both cases, independent of the errors. -/
theorem prepareAggregatesAllErrors (subErrs : List String) (c : Config)
    (tree : Option SnapshotTree) :
    ConfigPrepare subErrs c tree
      = (snapshotConstraintErrors tree (applyDefaults c).AttachSnapshot
            (applyDefaults c).TargetSnapshot (applyDefaults c).DeleteTargetSnapshot).map
          (fun snapErrs =>
            (configWarnings (applyDefaults c),
              if prepFieldErrs subErrs (applyDefaults c)
                  ++ snapErrs.map PrepErr.snapshotConstraint = [] then none
              else some (prepFieldErrs subErrs (applyDefaults c)
                  ++ snapErrs.map PrepErr.snapshotConstraint))) := by
  unfold ConfigPrepare
  dsimp only
  cases ht : snapshotConstraintErrors tree (applyDefaults c).AttachSnapshot
      (applyDefaults c).TargetSnapshot (applyDefaults c).DeleteTargetSnapshot with
  | error e => rfl
  | ok l =>
    dsimp only [Except.map]
    generalize prepFieldErrs subErrs (applyDefaults c)
        ++ l.map PrepErr.snapshotConstraint = L
    cases L with
    | nil => simp
    | cons x xs => simp

/-- Claim C6: absent tree, empty attach name, non-empty target name, valid
field values and no sub-configuration errors: preparation succeeds with
warnings only and no error at all (the target is accepted fresh). -/
theorem absentTreeFreshTarget (c : Config)
    (hvm : ¬(applyDefaults c).VMName = "")
    (hmode : validModes.contains (applyDefaults c).GuestAdditionsMode = true)
    (hattach : c.AttachSnapshot = "")
    (htarget : c.TargetSnapshot ≠ "") :
    ConfigPrepare [] c none
      = Except.ok (configWarnings (applyDefaults c), none) := by
  have hA : (applyDefaults c).AttachSnapshot = "" := hattach
  have hsnap : snapshotConstraintErrors none (applyDefaults c).AttachSnapshot
      (applyDefaults c).TargetSnapshot (applyDefaults c).DeleteTargetSnapshot
      = Except.ok [] := by
    have hres : resolveAttachErrs none (applyDefaults c).AttachSnapshot none = ([], none) := by
      unfold resolveAttachErrs
      rw [if_neg (fun hne => hne hA)]
    have htgE : targetErrs none none (applyDefaults c).TargetSnapshot
        (applyDefaults c).DeleteTargetSnapshot = Except.ok [] := by
      unfold targetErrs
      split <;> rfl
    have hsame : sameAttachTargetErrs (applyDefaults c).AttachSnapshot
        (applyDefaults c).TargetSnapshot = [] := by
      unfold sameAttachTargetErrs
      rw [if_neg]
      rintro ⟨h1, -, -⟩
      exact h1 hA
    unfold snapshotConstraintErrors restAfterSameCheck initialAttachSnapshot
    dsimp only
    rw [hres]
    dsimp only
    rw [htgE]
    dsimp only
    rw [hsame]
    rfl
  have hfield : prepFieldErrs [] (applyDefaults c) = [] := by
    unfold prepFieldErrs
    rw [if_neg hvm, if_pos hmode]
    simp
  unfold ConfigPrepare
  dsimp only
  rw [hsnap]
  dsimp only
  rw [hfield]
  simp

def cfgFresh : Config := ⟨"", "", "", "vm", "", "base", false, false, false, 0, ""⟩

theorem absentTreeFreshTarget_witness :
    ConfigPrepare [] cfgFresh none
      = Except.ok (configWarnings (applyDefaults cfgFresh), none) :=
  absentTreeFreshTarget cfgFresh (by decide) (by decide) rfl (by decide)

end PackerVBoxVM
